import Mathlib

set_option autoImplicit false

/-!
Shallow embedding of the job/session lifecycle engine of the dampdf-railway
repository (the `src/app` tree, which is the version the claims cite).

Layer 1 models `app/services/session_manager.py`: the TTL key-value store with
a networked (Redis) backend and an in-process fallback backend.
Layer 2 models the job lifecycle: `app/api/api_v1/endpoints/files.py`
(upload), `app/api/api_v1/endpoints/processing.py` (start, background worker,
status poll), `app/api/api_v1/endpoints/download.py` (download gate), and
`app/services/file_processor.py` (transform orchestration and file metadata).

Python `datetime` instants are modelled as `Nat` seconds; `timedelta(hours=h)`
is `h * 3600`.  Backend I/O faults ("the backend raises") are modelled by an
explicit `Option String` parameter carrying the exception message; `none`
means the backend call succeeds.
-/

namespace DamPDF

/-- `ProcessingStatus` from `app/models/file_models.py`. -/
inductive ProcessingStatus where
  | queued
  | processing
  | completed
  | failed
deriving DecidableEq

/-- `ToolType` from `app/models/file_models.py`. -/
inductive ToolType where
  | imageCompress
  | pdfCompress
  | docxToPdf
  | xlsxToPdf
deriving DecidableEq

/-- Default of `MAX_FILE_SIZE_MB` in `app/core/config.py`. -/
def MAX_FILE_SIZE_MB : Nat := 50

/-- Default of `TEMP_FILE_EXPIRE_HOURS` in `app/core/config.py`. -/
def TEMP_FILE_EXPIRE_HOURS : Nat := 1

/-- Default of `PROCESSED_FILE_EXPIRE_HOURS` in `app/core/config.py`. -/
def PROCESSED_FILE_EXPIRE_HOURS : Nat := 24

/-- A Python value stored in a session (`Dict[str, Any]` and its leaves).
`vDatetime` models a `datetime.datetime` object, which is not JSON-native:
`json.dumps(data, default=str)` turns it into a string.  The session dicts
the application stores contain such leaves (`upload_time`, `created_at`). -/
inductive Value where
  | vNull : Value
  | vBool : Bool → Value
  | vInt : Int → Value
  | vStr : String → Value
  | vDatetime : Nat → Value
  | vObj : List (String × Value) → Value

/-- Abstraction of Python `str(datetime)`; only its being a string matters. -/
def dtToString (t : Nat) : String := toString t

mutual
/-- The value `json.loads(json.dumps(v, default=str))` produces: JSON-native
leaves pass through, a `datetime` comes back as its `str()` rendering. -/
def jsonRoundtrip : Value → Value
  | .vNull => .vNull
  | .vBool b => .vBool b
  | .vInt n => .vInt n
  | .vStr s => .vStr s
  | .vDatetime t => .vStr (dtToString t)
  | .vObj fs => .vObj (jsonRoundtripFields fs)

/-- Field-wise `jsonRoundtrip` on a JSON object. -/
def jsonRoundtripFields : List (String × Value) → List (String × Value)
  | [] => []
  | (k, v) :: fs => (k, jsonRoundtrip v) :: jsonRoundtripFields fs
end

/-- Python `dict` lookup (`d.get(k)`), on an association list. -/
def dictGet {α : Type} (m : List (String × α)) (k : String) : Option α :=
  match m with
  | [] => none
  | (k', v) :: rest => if k' = k then some v else dictGet rest k

/-- Python `dict` assignment (`d[k] = v`): overwrite if present, else append. -/
def dictInsert {α : Type} (m : List (String × α)) (k : String) (v : α) :
    List (String × α) :=
  match m with
  | [] => [(k, v)]
  | (k', v') :: rest =>
    if k' = k then (k, v) :: rest else (k', v') :: dictInsert rest k v

/-- Python `del d[k]` (keys are unique in a Python dict, so removing the
first occurrence is removal). -/
def dictRemove {α : Type} (m : List (String × α)) (k : String) :
    List (String × α) :=
  match m with
  | [] => []
  | (k', v') :: rest => if k' = k then rest else (k', v') :: dictRemove rest k

/-- One entry of `SessionManager._in_memory_store`: the dict
`{"data": ..., "expires_at": ...}`. -/
structure MemEntry where
  data : Value
  expires_at : Nat

/-- The in-process fallback backend: `SessionManager._in_memory_store`. -/
abbrev MemStore := List (String × MemEntry)

/-- Modelled from the spec: the networked backend "delegates TTL and storage
to an external cache service" (Redis, reached through `aioredis`), whose code
is not part of this repository.  An entry maps a key to the stored document
and its absolute expiry instant (`setex` sets it to now + ttl); `get` yields
the document while the current instant is before the expiry and nothing
afterwards.  The stored document is a serialized JSON text; we represent it
by its parse, i.e. by the `Value` that `json.loads` returns for it (the
serialization of a dict is never the empty string, so the `if data:`
truthiness test in `get_session_data` is truth exactly on presence). -/
abbrev RedisStore := List (String × (Value × Nat))

/-- The mutable state of `SessionManager`: the selected backend
(`redis_pool` is `none` after a failed connect) and the in-memory map. -/
structure SMState where
  redis_pool : Option RedisStore
  in_memory : MemStore

/-- `SessionManager._cleanup_expired_sessions`: collect every key whose
`expires_at` is strictly before `now` and delete them, i.e. keep exactly the
entries with `¬ expires_at < now`. -/
def cleanup_expired_sessions (m : MemStore) (now : Nat) : MemStore :=
  m.filter fun kv => ! decide (kv.2.expires_at < now)

/-- `SessionManager.store_session_data`.  `backendFault = some e` models the
networked backend raising exception `e` during `setex`; the surrounding
`try/except` logs and re-raises, so the result is `Except.error e` (and the
backend state is unchanged by the failed call).  The in-memory branch inserts
`{"data": data, "expires_at": now + hours}` and then runs the lazy cleanup;
its plain dict operations cannot raise. -/
def store_session_data (st : SMState) (session_id : String) (data : Value)
    (expire_hours : Nat) (now : Nat) (backendFault : Option String) :
    Except String SMState :=
  match st.redis_pool with
  | some redis =>
    match backendFault with
    | some e => .error e
    | none =>
      .ok { st with redis_pool := some (dictInsert redis
              ("session:" ++ session_id)
              (jsonRoundtrip data, now + expire_hours * 3600)) }
  | none =>
    let m1 := dictInsert st.in_memory session_id
      { data := data, expires_at := now + expire_hours * 3600 }
    .ok { st with in_memory := cleanup_expired_sessions m1 now }

/-- `SessionManager.get_session_data`.  The `try/except` converts any backend
exception into the not-found result `None` (modelled `.ok none`), never
propagating it; the in-memory branch returns the data while
`expires_at > now` and otherwise deletes the expired entry before returning
`None`. -/
def get_session_data (st : SMState) (session_id : String) (now : Nat)
    (backendFault : Option String) :
    Except String (Option Value) × SMState :=
  match st.redis_pool with
  | some redis =>
    match backendFault with
    | some _ => (.ok none, st)
    | none =>
      match dictGet redis ("session:" ++ session_id) with
      | some (doc, expiry) =>
        if now < expiry then (.ok (some doc), st) else (.ok none, st)
      | none => (.ok none, st)
  | none =>
    match dictGet st.in_memory session_id with
    | some entry =>
      if entry.expires_at > now then (.ok (some entry.data), st)
      else (.ok none, { st with in_memory := dictRemove st.in_memory session_id })
    | none => (.ok none, st)

/-- `SessionManager.delete_session`.  The networked branch returns whether
`redis.delete` removed something (`result > 0`); any backend exception is
caught and turned into `False`.  The in-memory branch deletes the key when
present.  No path re-raises. -/
def delete_session (st : SMState) (session_id : String)
    (backendFault : Option String) : Except String Bool × SMState :=
  match st.redis_pool with
  | some redis =>
    match backendFault with
    | some _ => (.ok false, st)
    | none =>
      let key := "session:" ++ session_id
      let result : Nat := if (dictGet redis key).isSome then 1 else 0
      (.ok (decide (result > 0)),
       { st with redis_pool := some (dictRemove redis key) })
  | none =>
    match dictGet st.in_memory session_id with
    | some _ => (.ok true, { st with in_memory := dictRemove st.in_memory session_id })
    | none => (.ok false, st)

/-- `file_info` dict built in `FileProcessor.process_file` (lines 59-73 of
`app/services/file_processor.py`); the `created_at` timestamp field is
omitted, it is written and never read by the core. -/
structure FileInfo where
  filename : String
  original_size : Nat
  processed_size : Nat
  new_size : Nat
  compression_ratio : ℚ
deriving DecidableEq

/-- The session dict as written by the core's operations
(`upload_file`, `start_processing`, `process_file_background`).  Keys that
are absent until some write sets them are `Option` fields (`none` = key not
present in the dict). -/
structure SessionRec where
  session_id : String
  filename : String
  original_filename : String
  file_path : Option String
  file_type : String
  size : Nat
  tool_type : String
  status : ProcessingStatus
  upload_time : Nat
  progress : Int
  message : Option String
  output_path : Option String
  file_info : Option FileInfo
  error : Option String
deriving DecidableEq

/-- The session dict created by `upload_file`
(`app/api/api_v1/endpoints/files.py` lines 59-70). -/
def uploadRecord (sid filename content_type tool_type : String)
    (temp_path : String) (file_size : Nat) (now : Nat) : SessionRec :=
  { session_id := sid
    filename := filename
    original_filename := filename
    file_path := some temp_path
    file_type := content_type
    size := file_size
    tool_type := tool_type
    status := .queued
    upload_time := now
    progress := 0
    message := none
    output_path := none
    file_info := none
    error := none }

/-- The mutation `start_processing` performs before persisting
(`processing.py` lines 26-28): status `PROCESSING`, progress 10, message. -/
def startWrite (d : SessionRec) : SessionRec :=
  { d with status := .processing, progress := 10,
           message := some "Processing started" }

/-- The first write of `process_file_background` (`processing.py` lines
86-92): progress 30 and a message; the status key is left as it was. -/
def bgProgressWrite (d : SessionRec) : SessionRec :=
  { d with progress := 30, message := some "Processing file..." }

/-- The completion write of `process_file_background` (`processing.py` lines
100-111): status `COMPLETED`, progress 100, output path and file info. -/
def bgCompleteWrite (d : SessionRec) (out : String) (fi : FileInfo) :
    SessionRec :=
  { d with status := .completed, progress := 100,
           message := some "Processing complete",
           output_path := some out, file_info := some fi }

/-- The failure write of `process_file_background` (`processing.py` lines
122-128): status `FAILED` and `error = str(e)`; progress, message and any
other keys are left as they were. -/
def bgFailWrite (d : SessionRec) (e : String) : SessionRec :=
  { d with status := .failed, error := some e }

/-- Errors the HTTP layer reports: `HTTPException(404)`, the
`except DamPDFException` branch (400) and the generic branch (500). -/
inductive ApiError where
  | notFound : String → ApiError
  | badRequest : String → String → ApiError
  | internalError : String → String → ApiError
deriving DecidableEq

/-- `ProcessingStatusResponse` from `app/models/file_models.py`; `message` is
always a string because the handlers default it with `.get("message", "")`. -/
structure StatusResponse where
  session_id : String
  status : ProcessingStatus
  progress : Int
  message : String
  error : Option String
deriving DecidableEq

/-- Result of one invocation of the `/start` endpoint: its HTTP response, the
store entry for the job id afterwards, and whether a background task was
handed off to `background_tasks.add_task`. -/
structure StartResult where
  response : Except ApiError StatusResponse
  store : Option SessionRec
  scheduled : Bool

/-- `start_processing` (`app/api/api_v1/endpoints/processing.py` lines
17-70) for job id `sid`, whose (unexpired) store entry is `store`.
Mirrors the code's order: read the session (404 if absent); mutate it to
PROCESSING/10 and persist it (`storeFault` models the store raising, which
the generic `except` turns into a 500 with the store unchanged); only then
read `file_path` from the session and 404 if the file is missing — note this
happens after the PROCESSING write and before the background hand-off; else
schedule `process_file_background` and return the PROCESSING response. -/
def start_processing (sid : String) (store : Option SessionRec)
    (fileExists : String → Bool) (storeFault : Option String) : StartResult :=
  match store with
  | none =>
    { response := .error (.notFound "Session not found or expired")
      store := store, scheduled := false }
  | some d =>
    match storeFault with
    | some _ =>
      { response := .error (.internalError "An unexpected error occurred" "INTERNAL_ERROR")
        store := store, scheduled := false }
    | none =>
      let d' := startWrite d
      match d.file_path with
      | none =>
        { response := .error (.notFound "File not found")
          store := some d', scheduled := false }
      | some p =>
        if fileExists p then
          { response := .ok { session_id := sid, status := .processing,
                              progress := 10, message := "Processing started",
                              error := none }
            store := some d', scheduled := true }
        else
          { response := .error (.notFound "File not found")
            store := some d', scheduled := false }

/-- `get_processing_status` (`processing.py` lines 132-154): a pure read of
the store entry; 404 when absent, otherwise the record's fields with the
code's `.get` defaults. -/
def get_processing_status (sid : String) (store : Option SessionRec) :
    Except ApiError StatusResponse :=
  match store with
  | none => .error (.notFound "Session not found or expired")
  | some d =>
    .ok { session_id := sid, status := d.status, progress := d.progress,
          message := d.message.getD "", error := d.error }

/-- `download_file` (`app/api/api_v1/endpoints/download.py`): 404 when the
session is absent, 404 when `output_path` is unset or the artifact file is
gone, else serve the artifact (`track_usage` never raises and performs no
store write).  The store entry is returned unchanged: no path writes it. -/
def download_file (sid : String) (store : Option SessionRec)
    (fileExists : String → Bool) :
    (Except ApiError String) × Option SessionRec :=
  match store with
  | none => (.error (.notFound "File not found or expired"), store)
  | some d =>
    match d.output_path with
    | none => (.error (.notFound "Processed file not found"), store)
    | some p =>
      if fileExists p then (.ok p, store)
      else (.error (.notFound "Processed file not found"), store)

/-- The `except Exception` block of `process_file_background` (lines
115-130): re-read the session and, when present, persist the FAILED record;
a store fault during that write is caught by the inner `except` and leaves
the store as it was. -/
def bgErrorWrite (store : Option SessionRec) (e : String)
    (errWriteFault : Option String) : Option SessionRec :=
  match store with
  | none => store
  | some d =>
    match errWriteFault with
    | some _ => store
    | none => some (bgFailWrite d e)

/-- `process_file_background` (`processing.py` lines 72-130), acting on the
store entry of its job id.  `procResult` is the outcome of
`file_processor.process_file` (output path and file info, or the raised
exception's message); the three fault parameters model the store raising
during the progress write, the completion write and the failure write.  If
the session is gone the task returns without writing. -/
def process_file_background (store : Option SessionRec)
    (procResult : Except String (String × FileInfo))
    (progressWriteFault completeWriteFault errWriteFault : Option String) :
    Option SessionRec :=
  match store with
  | none => none
  | some d =>
    match progressWriteFault with
    | some e1 => bgErrorWrite (some d) e1 errWriteFault
    | none =>
      let store1 := some (bgProgressWrite d)
      match procResult with
      | .error e => bgErrorWrite store1 e errWriteFault
      | .ok (out, fi) =>
        match completeWriteFault with
        | some e2 => bgErrorWrite store1 e2 errWriteFault
        | none => some (bgCompleteWrite (bgProgressWrite d) out fi)

/-- `valid_types` from `validate_file_type`
(`app/api/api_v1/endpoints/files.py` lines 120-125). -/
def valid_types : List (String × List String) :=
  [("image-compress", ["image/jpeg", "image/png", "image/webp", "image/gif"]),
   ("pdf-compress", ["application/pdf"]),
   ("docx-to-pdf", ["application/vnd.openxmlformats-officedocument.wordprocessingml.document",
                    "application/msword"]),
   ("xlsx-to-pdf", ["application/vnd.openxmlformats-officedocument.spreadsheetml.sheet",
                    "application/vnd.ms-excel"])]

/-- Errors `upload_file` maps to non-200 responses. -/
inductive UploadError where
  | fileTooLarge : UploadError
  | unsupportedFileType : String → UploadError
deriving DecidableEq

/-- `validate_file_type` (`files.py` lines 118-128): raises
`UnsupportedFileTypeError` only when the tool type is a key of `valid_types`
AND the content type is not in its list — a tool type outside the dict makes
the conjunction false, so nothing is raised. -/
def validate_file_type (content_type tool_type : String) :
    Option UploadError :=
  match dictGet valid_types tool_type with
  | some allowed =>
    if content_type ∈ allowed then none
    else some (.unsupportedFileType content_type)
  | none => none

/-- `FileUploadResponse` from `app/models/file_models.py`. -/
structure FileUploadResponse where
  session_id : String
  filename : String
  size : Nat
  file_type : String
  upload_time : Nat
deriving DecidableEq

/-- `upload_file` (`files.py` lines 19-116): reject when the accumulated size
exceeds `MAX_FILE_SIZE_MB` (413), run `validate_file_type` (415 on failure;
the temp file is removed and no session is stored), else generate a session
id, store the QUEUED session dict and answer with the upload response.
Returns the response and the store entry for the fresh session id
(`none` = no record was created). -/
def upload_file (filename content_type tool_type : String) (file_size : Nat)
    (temp_path sid : String) (now : Nat) :
    (Except UploadError FileUploadResponse) × Option SessionRec :=
  if file_size > MAX_FILE_SIZE_MB * 1024 * 1024 then
    (.error .fileTooLarge, none)
  else
    match validate_file_type content_type tool_type with
    | some e => (.error e, none)
    | none =>
      (.ok { session_id := sid, filename := filename, size := file_size,
             file_type := content_type, upload_time := now },
       some (uploadRecord sid filename content_type tool_type temp_path file_size now))

/-- The `timeout=60` passed to `asyncio.wait_for` in
`FileProcessor._convert_docx_to_pdf` (`file_processor.py` line 129). -/
def conversion_timeout_seconds : Nat := 60

/-- Behavior of the `libreoffice` subprocess spawned by the converter:
either it finishes after `duration` seconds with a return code, captured
stderr and (not) having produced the converted file, or it never finishes. -/
inductive SubprocBehavior where
  | finishes : Nat → Int → Option String → Bool → SubprocBehavior
  | hangs : SubprocBehavior
deriving DecidableEq

/-- `FileProcessor._convert_docx_to_pdf` (`file_processor.py` lines
118-150): `wait_for` raises `TimeoutError` when the subprocess takes longer
than `conversion_timeout_seconds`, upon which the process is killed (second
component `true`) and `FileProcessingError("Document conversion timed out
after 60 seconds")` is raised; a non-zero exit raises with the captured
stderr; a zero exit without the converted file raises "Converted file not
found". -/
def convert_docx_to_pdf (b : SubprocBehavior) : Except String Unit × Bool :=
  match b with
  | .hangs => (.error "Document conversion timed out after 60 seconds", true)
  | .finishes duration returncode stderr converted =>
    if conversion_timeout_seconds < duration then
      (.error "Document conversion timed out after 60 seconds", true)
    else if returncode ≠ 0 then
      (.error ("Document conversion failed: " ++ stderr.getD "Unknown conversion error"), false)
    else if converted then (.ok (), false)
    else (.error "Converted file not found", false)

/-- `generate_output_filename` (`file_processor.py` lines 19-27);
`date_str` stands for `datetime.now().strftime` and `target_extension = none`
for the absent/falsy argument. -/
def generate_output_filename (original_name : String)
    (target_extension : Option String) (date_str : String) : String :=
  let parts := original_name.splitOn "."
  let name_without_ext :=
    match parts with
    | [] => original_name
    | [x] => x
    | xs => String.intercalate "." xs.dropLast
  let original_ext :=
    match parts with
    | [] => ""
    | [_] => ""
    | xs => xs.getLastD ""
  let final_extension := target_extension.getD original_ext
  name_without_ext ++ "_created_by_dampdf_" ++ date_str ++ "." ++ final_extension

/-- The ternary at `file_processor.py` line 62:
`((original_size - processed_size) / original_size) * 100 if original_size > 0
else 0`, over exact rationals (Python computes in binary floating point; the
claims are about sign and formula shape, which agree). -/
def compression_ratio_calc (original_size processed_size : Nat) : ℚ :=
  if original_size > 0 then
    (((original_size : ℚ) - (processed_size : ℚ)) / (original_size : ℚ)) * 100
  else 0

/-- The `file_info` dict of `FileProcessor.process_file` (lines 64-71),
with the clamp `max(0, compression_ratio)` of line 69. -/
def mkFileInfo (output_filename : String) (original_size processed_size : Nat) :
    FileInfo :=
  { filename := output_filename
    original_size := original_size
    processed_size := processed_size
    new_size := processed_size
    compression_ratio := max 0 (compression_ratio_calc original_size processed_size) }

/-- `FileProcessor.process_file` (lines 30-77): pick the output filename (pdf
extension for the two conversion tools), run the per-tool transform
(`transform` is its outcome: `ok` once the output file is written, or the
raised error's message), and on success compute the sizes (supplied by the
filesystem oracle as `original_size`/`processed_size`) and the file info; any
exception is re-raised as `FileProcessingError("Failed to process file: ...")`. -/
def process_file (tool_type : ToolType) (transform : Except String Unit)
    (original_size processed_size : Nat)
    (original_filename date_str output_dir : String) :
    Except String (String × FileInfo) :=
  let output_filename :=
    if tool_type = .docxToPdf ∨ tool_type = .xlsxToPdf then
      generate_output_filename original_filename (some "pdf") date_str
    else generate_output_filename original_filename none date_str
  let output_path := output_dir ++ "/" ++ output_filename
  match transform with
  | .error e => .error ("Failed to process file: " ++ e)
  | .ok _ => .ok (output_path, mkFileInfo output_filename original_size processed_size)

/-- The JobRecord well-formedness invariant of spec §3: an `outputLocation`
implies state COMPLETED, state FAILED implies `errorDetail` set, and
progress lies in [0, 100]. -/
def wfRecord (d : SessionRec) : Prop :=
  (d.output_path ≠ none → d.status = .completed) ∧
  (d.status = .failed → d.error ≠ none) ∧
  0 ≤ d.progress ∧ d.progress ≤ 100

instance (d : SessionRec) : Decidable (wfRecord d) := by
  unfold wfRecord; infer_instance

/-- Substring containment, for "errorDetail containing a phrase". -/
def strContains (s pat : String) : Bool := decide (pat.data <:+: s.data)

/-- Filesystem oracle on which every path exists. -/
def allFilesExist : String → Bool := fun _ => true

/-- Filesystem oracle on which no path exists. -/
def noFilesExist : String → Bool := fun _ => false

/-- A freshly uploaded pdf-compress job (concrete test fixture). -/
def recQueued : SessionRec :=
  uploadRecord "sid-1" "a.pdf" "application/pdf" "pdf-compress" "/tmp/in1.pdf" 100 0

/-- The store after upload, start and a failing transform: a FAILED record. -/
def c1StoreFailed : Option SessionRec :=
  process_file_background
    (start_processing "sid-1" (some recQueued) allFilesExist none).store
    (.error "boom") none none none

/-- A QUEUED record whose `file_path` names a file that no longer exists. -/
def c2QueuedRec : SessionRec :=
  uploadRecord "sid-2" "b.pdf" "application/pdf" "pdf-compress" "/tmp/gone.pdf" 100 0

/-- A session dict of the shape `upload_file` stores: it carries a
`datetime`-valued field, which is not JSON-native. -/
def c4Val : Value :=
  .vObj [("session_id", .vStr "sid-4"), ("upload_time", .vDatetime 1700000000)]

/-- What the networked backend hands back for `c4Val`: the `datetime` leaf
has become its string rendering. -/
def c4ValRound : Value :=
  .vObj [("session_id", .vStr "sid-4"), ("upload_time", .vStr (dtToString 1700000000))]

/-- A freshly uploaded job used for the C5 trace. -/
def c5Rec0 : SessionRec :=
  uploadRecord "sid-5" "c.pdf" "application/pdf" "pdf-compress" "/tmp/in5.pdf" 500 0

/-- File info of a successful 1000-byte → 400-byte run. -/
def c5Fi : FileInfo := mkFileInfo "out.pdf" 1000 400

/-- Store entry after the trace upload → start → background completion →
second start, produced by the endpoint functions themselves. -/
def c5Store3 : Option SessionRec :=
  (start_processing "sid-5"
    (process_file_background
      (start_processing "sid-5" (some c5Rec0) allFilesExist none).store
      (.ok ("/tmp/out5.pdf", c5Fi)) none none none)
    allFilesExist none).store

/-- The record `c5Store3` holds, written out. -/
def c5Rec3 : SessionRec :=
  startWrite (bgCompleteWrite (bgProgressWrite (startWrite c5Rec0)) "/tmp/out5.pdf" c5Fi)

/-- A terminal (FAILED) record, for witnesses. -/
def recFailed : SessionRec :=
  { recQueued with status := .failed, error := some "boom" }

/-- The message of the `FileProcessingError` raised on conversion timeout
(`file_processor.py` line 132). -/
def timeoutMsg : String := "Document conversion timed out after 60 seconds"

/-- The message `process_file` re-raises for a timed-out conversion, which
`process_file_background` stores as the record's `error`. -/
def timeoutBgMsg : String :=
  "Failed to process file: Document conversion timed out after 60 seconds"

/- ------------------------------------------------------------------ -/
/- Helper lemmas about the Python-dict model.                          -/
/- ------------------------------------------------------------------ -/

theorem dictGet_mem {α : Type} {m : List (String × α)} {k : String} {v : α}
    (h : dictGet m k = some v) : (k, v) ∈ m := by
  induction m with
  | nil => simp [dictGet] at h
  | cons kv rest ih =>
    obtain ⟨k', v'⟩ := kv
    by_cases hk : k' = k
    · subst hk
      simp [dictGet] at h
      simp [h]
    · simp [dictGet, hk] at h
      exact List.mem_cons_of_mem _ (ih h)

theorem dictGet_insert_self {α : Type} (m : List (String × α)) (k : String)
    (v : α) : dictGet (dictInsert m k v) k = some v := by
  induction m with
  | nil => simp [dictInsert, dictGet]
  | cons kv rest ih =>
    obtain ⟨k', v'⟩ := kv
    by_cases hk : k' = k
    · subst hk
      simp [dictInsert, dictGet]
    · simp [dictInsert, dictGet, hk, ih]

theorem dictGet_insert_ne {α : Type} (m : List (String × α)) {k k' : String}
    (v : α) (h : k ≠ k') : dictGet (dictInsert m k v) k' = dictGet m k' := by
  induction m with
  | nil => simp [dictInsert, dictGet, h]
  | cons kv rest ih =>
    obtain ⟨k'', v''⟩ := kv
    by_cases hk : k'' = k
    · subst hk
      simp [dictInsert, dictGet, h]
    · simp [dictInsert, dictGet, hk, ih]

theorem dictGet_filter_of_get {α : Type} {p : String × α → Bool}
    {m : List (String × α)} {k : String} {v : α}
    (h : dictGet m k = some v) (hp : p (k, v) = true) :
    dictGet (m.filter p) k = some v := by
  induction m with
  | nil => simp [dictGet] at h
  | cons kv rest ih =>
    obtain ⟨k', v'⟩ := kv
    by_cases hk : k' = k
    · subst hk
      simp [dictGet] at h
      subst h
      simp [List.filter, hp, dictGet]
    · simp [dictGet, hk] at h
      cases hkeep : p (k', v') <;> simp [List.filter, hkeep, dictGet, hk, ih h]

theorem dictRemove_of_get_none {α : Type} {m : List (String × α)} {k : String}
    (h : dictGet m k = none) : dictRemove m k = m := by
  induction m with
  | nil => simp [dictRemove]
  | cons kv rest ih =>
    obtain ⟨k', v'⟩ := kv
    by_cases hk : k' = k
    · subst hk
      simp [dictGet] at h
    · simp [dictGet, hk] at h
      simp [dictRemove, hk, ih h]

/- ------------------------------------------------------------------ -/
/- Claim theorems.                                                     -/
/- ------------------------------------------------------------------ -/

/-- C1 counterexample: terminal states are not absorbing as claimed.  A job
driven to FAILED by the endpoint functions themselves (upload → start →
failing transform) is rewritten to PROCESSING by a further
`start_processing` call: the handler has no terminal-state guard. -/
theorem c1_failed_job_resurrects :
    c1StoreFailed = some (bgFailWrite (bgProgressWrite (startWrite recQueued)) "boom") ∧
    (bgFailWrite (bgProgressWrite (startWrite recQueued)) "boom").status = .failed ∧
    (start_processing "sid-1" c1StoreFailed allFilesExist none).store =
      some (startWrite (bgFailWrite (bgProgressWrite (startWrite recQueued)) "boom")) ∧
    (startWrite (bgFailWrite (bgProgressWrite (startWrite recQueued)) "boom")).status =
      .processing :=
  ⟨rfl, rfl, rfl, rfl⟩

/-- C1 (amended): terminal states are stable under every core operation
except a renewed `start_processing`: the background writer never rewrites a
terminal record to a non-terminal state (whatever the transform outcome and
whatever store faults occur), a status poll is a pure read returning the
stored record's own fields verbatim (so polls on a terminal record keep
returning that same record), and the download gate never writes the store.
`start_processing`, however, rewrites even a FAILED record to PROCESSING
(see the counterexample). -/
theorem c1_terminal_stable_without_restart :
    (∀ (d : SessionRec) (pr : Except String (String × FileInfo))
       (f1 f2 f3 : Option String) (d' : SessionRec),
       (d.status = .completed ∨ d.status = .failed) →
       process_file_background (some d) pr f1 f2 f3 = some d' →
       (d'.status = .completed ∨ d'.status = .failed)) ∧
    (∀ (sid : String) (d : SessionRec),
       get_processing_status sid (some d) =
         .ok { session_id := sid, status := d.status, progress := d.progress,
               message := d.message.getD "", error := d.error }) ∧
    (∀ (sid : String) (store : Option SessionRec) (fe : String → Bool),
       (download_file sid store fe).2 = store) := by
  refine ⟨?_, ?_, ?_⟩
  · intro d pr f1 f2 f3 d' hterm heq
    cases f1 with
    | some e1 =>
      cases f3 with
      | some e3 =>
        obtain rfl := Option.some.inj heq
        exact hterm
      | none =>
        obtain rfl := Option.some.inj heq
        exact Or.inr rfl
    | none =>
      cases pr with
      | error e =>
        cases f3 with
        | some e3 =>
          obtain rfl := Option.some.inj heq
          exact hterm
        | none =>
          obtain rfl := Option.some.inj heq
          exact Or.inr rfl
      | ok pair =>
        obtain ⟨out, fi⟩ := pair
        cases f2 with
        | some e2 =>
          cases f3 with
          | some e3 =>
            obtain rfl := Option.some.inj heq
            exact hterm
          | none =>
            obtain rfl := Option.some.inj heq
            exact Or.inr rfl
        | none =>
          obtain rfl := Option.some.inj heq
          exact Or.inl rfl
  · intro sid d
    rfl
  · intro sid store fe
    cases store with
    | none => rfl
    | some d =>
      cases hop : d.output_path with
      | none => simp [download_file, hop]
      | some p => simp [download_file, hop]; cases fe p <;> simp

/-- C1 witness: the amended theorem applied at a concrete FAILED record. -/
theorem c1_terminal_stable_without_restart_w :
    ((bgFailWrite (bgProgressWrite recFailed) "x").status = .completed ∨
     (bgFailWrite (bgProgressWrite recFailed) "x").status = .failed) ∧
    get_processing_status "sid-1" (some recFailed) =
      .ok { session_id := "sid-1", status := recFailed.status,
            progress := recFailed.progress,
            message := recFailed.message.getD "", error := recFailed.error } ∧
    (download_file "sid-1" (some recFailed) allFilesExist).2 = some recFailed :=
  ⟨c1_terminal_stable_without_restart.1 recFailed (.error "x") none none none
      (bgFailWrite (bgProgressWrite recFailed) "x") (Or.inr rfl) rfl,
   c1_terminal_stable_without_restart.2.1 "sid-1" recFailed,
   c1_terminal_stable_without_restart.2.2 "sid-1" (some recFailed) allFilesExist⟩

/-- C2: evaluation at the failing input.  On a QUEUED session whose
`file_path` names a file that does not exist, `start_processing` persists
the PROCESSING record, then raises 404 "File not found" without scheduling
the background task and without resetting or failing the record: the job
remains PROCESSING with no pending background work, contradicting the
claim's (and spec's) requirement that every such path end in FAILED. -/
theorem c2_missing_input_leaves_processing :
    (start_processing "sid-2" (some c2QueuedRec) noFilesExist none).response =
      .error (.notFound "File not found") ∧
    (start_processing "sid-2" (some c2QueuedRec) noFilesExist none).store =
      some (startWrite c2QueuedRec) ∧
    (startWrite c2QueuedRec).status = .processing ∧
    (startWrite c2QueuedRec).error = none ∧
    (start_processing "sid-2" (some c2QueuedRec) noFilesExist none).scheduled = false :=
  ⟨rfl, rfl, rfl, rfl, rfl⟩

/-- C3 counterexample: for originalSize 1000 and processedSize 400 the code
stores `compressionRatio = 60` (a percentage), not the claimed
`(1000 - 400) / 1000 = 3/5`: the code multiplies the fraction by 100. -/
theorem c3_ratio_is_percent_not_fraction :
    (mkFileInfo "out.pdf" 1000 400).compression_ratio = 60 ∧
    max 0 (((1000 : ℚ) - 400) / 1000) = 3 / 5 ∧
    (mkFileInfo "out.pdf" 1000 400).compression_ratio ≠
      max 0 (((1000 : ℚ) - 400) / 1000) := by
  refine ⟨?_, ?_, ?_⟩
  · unfold mkFileInfo compression_ratio_calc
    norm_num
  · norm_num
  · unfold mkFileInfo compression_ratio_calc
    norm_num

/-- C3 (amended): the stored compressionRatio equals
`(originalSize - processedSize) / originalSize * 100` clamped to ≥ 0 (the
code stores a percentage, not the bare fraction); in particular it is never
negative, and when processedSize exceeds originalSize it is exactly 0. -/
theorem c3_stored_ratio_clamped_percentage :
    ∀ (name : String) (o p : Nat),
      0 ≤ (mkFileInfo name o p).compression_ratio ∧
      (0 < o →
        (mkFileInfo name o p).compression_ratio =
          max 0 ((((o : ℚ) - (p : ℚ)) / (o : ℚ)) * 100)) ∧
      (0 < o → (o : ℚ) < (p : ℚ) →
        (mkFileInfo name o p).compression_ratio = 0) := by
  intro name o p
  refine ⟨le_max_left 0 _, ?_, ?_⟩
  · intro ho
    unfold mkFileInfo compression_ratio_calc
    rw [if_pos ho]
  · intro ho hop
    have h1 : ((o : ℚ) - p) < 0 := by linarith
    have h2 : (0 : ℚ) < (o : ℚ) := by exact_mod_cast ho
    have h3 : (((o : ℚ) - p) / o) * 100 < 0 :=
      mul_neg_of_neg_of_pos (div_neg_of_neg_of_pos h1 h2) (by norm_num)
    unfold mkFileInfo compression_ratio_calc
    rw [if_pos ho]
    exact max_eq_left h3.le

/-- C3 witness: the amended theorem applied at (1000, 400) and (400, 1000). -/
theorem c3_stored_ratio_clamped_percentage_w :
    0 ≤ (mkFileInfo "out.pdf" 1000 400).compression_ratio ∧
    (mkFileInfo "out.pdf" 1000 400).compression_ratio =
      max 0 ((((1000 : ℚ) - 400) / 1000) * 100) ∧
    (mkFileInfo "out.pdf" 400 1000).compression_ratio = 0 :=
  ⟨(c3_stored_ratio_clamped_percentage "out.pdf" 1000 400).1,
   (c3_stored_ratio_clamped_percentage "out.pdf" 1000 400).2.1 (by norm_num),
   (c3_stored_ratio_clamped_percentage "out.pdf" 400 1000).2.2 (by norm_num)
     (by norm_num)⟩

/-- C4 counterexample: on the networked backend the round trip does not
return the value unchanged.  Storing a session dict with a
`datetime`-valued field (exactly what `upload_file` stores) and reading it
back before expiry yields the JSON round trip of the value — the `datetime`
leaf has become a string (`json.dumps(..., default=str)`), so the returned
value differs from the stored one. -/
theorem c4_networked_value_not_unchanged :
    store_session_data ⟨some [], []⟩ "sid-4" c4Val 1 0 none =
      .ok ⟨some [("session:sid-4", (c4ValRound, 3600))], []⟩ ∧
    (get_session_data ⟨some [("session:sid-4", (c4ValRound, 3600))], []⟩
        "sid-4" 10 none).1 = .ok (some c4ValRound) ∧
    c4ValRound ≠ c4Val := by
  refine ⟨rfl, rfl, ?_⟩
  intro h
  simp [c4ValRound, c4Val] at h

/-- C4 (amended): TTL round trip per backend.  After a successful
`put(k, v, T)` at instant `now`, a `get(k)` strictly before `now + T`
returns `v` unchanged on the in-process fallback backend, but returns the
JSON round trip of `v` on the networked backend (equal to `v` exactly when
`v` is JSON-native; `datetime` leaves come back as strings); strictly after
`now + T`, both backends return the not-found signal `None`. -/
theorem c4_ttl_roundtrip_by_backend :
    ∀ (mem : MemStore) (r : RedisStore) (sid : String) (v : Value)
      (T now t : Nat) (stM stR : SMState),
      store_session_data ⟨none, mem⟩ sid v T now none = .ok stM →
      store_session_data ⟨some r, mem⟩ sid v T now none = .ok stR →
      ((t < now + T * 3600 →
         (get_session_data stM sid t none).1 = .ok (some v) ∧
         (get_session_data stR sid t none).1 = .ok (some (jsonRoundtrip v))) ∧
       (now + T * 3600 < t →
         (get_session_data stM sid t none).1 = .ok none ∧
         (get_session_data stR sid t none).1 = .ok none)) := by
  intro mem r sid v T now t stM stR hM hR
  rw [show store_session_data ⟨none, mem⟩ sid v T now none =
        .ok ⟨none, cleanup_expired_sessions
          (dictInsert mem sid ⟨v, now + T * 3600⟩) now⟩ from rfl] at hM
  rw [show store_session_data ⟨some r, mem⟩ sid v T now none =
        .ok ⟨some (dictInsert r ("session:" ++ sid)
          (jsonRoundtrip v, now + T * 3600)), mem⟩ from rfl] at hR
  obtain rfl := Except.ok.inj hM
  obtain rfl := Except.ok.inj hR
  have hmemGet : dictGet (cleanup_expired_sessions
      (dictInsert mem sid ⟨v, now + T * 3600⟩) now) sid =
      some ⟨v, now + T * 3600⟩ := by
    unfold cleanup_expired_sessions
    apply dictGet_filter_of_get (dictGet_insert_self mem sid _)
    simp
  have hredGet : dictGet (dictInsert r ("session:" ++ sid)
      (jsonRoundtrip v, now + T * 3600)) ("session:" ++ sid) =
      some (jsonRoundtrip v, now + T * 3600) :=
    dictGet_insert_self r _ _
  constructor
  · intro ht
    constructor
    · simp [get_session_data, hmemGet, ht]
    · simp [get_session_data, hredGet, ht]
  · intro ht
    have ht' : ¬ t < now + T * 3600 := by omega
    have ht'' : ¬ now + T * 3600 > t := by omega
    constructor
    · simp [get_session_data, hmemGet, ht'']
    · simp [get_session_data, hredGet, ht']

/-- C4 witness: the amended theorem applied to both backends at a concrete
put (T = 1 hour, now = 0) and a get at t = 5. -/
theorem c4_ttl_roundtrip_by_backend_w :
    (get_session_data ⟨none, [("s", ⟨.vStr "x", 3600⟩)]⟩ "s" 5 none).1 =
      .ok (some (.vStr "x")) ∧
    (get_session_data ⟨some [("session:s", (.vStr "x", 3600))], []⟩ "s" 5 none).1 =
      .ok (some (jsonRoundtrip (.vStr "x"))) :=
  (c4_ttl_roundtrip_by_backend [] [] "s" (.vStr "x") 1 0 5
    ⟨none, [("s", ⟨.vStr "x", 3600⟩)]⟩
    ⟨some [("session:s", (.vStr "x", 3600))], []⟩ rfl rfl).1 (by norm_num)

/-- C5 counterexample: a record produced by the core's own writes violating
the invariant.  Trace upload → start → background completion → second start
(the handler accepts a start on a COMPLETED job) stores a record with
`output_path` set while its state is PROCESSING. -/
theorem c5_second_start_breaks_invariant :
    c5Store3 = some c5Rec3 ∧
    c5Rec3.output_path = some "/tmp/out5.pdf" ∧
    c5Rec3.status = .processing ∧
    ¬ wfRecord c5Rec3 :=
  ⟨rfl, rfl, rfl, by decide⟩

/-- C5 (amended): the upload write and the background completion write
always produce well-formed records, and the start, background-progress and
background-failure writes preserve well-formedness provided the record they
overwrite is well-formed and — for start and background-failure — carries no
`output_path`.  That proviso holds throughout the intended single-start
lifecycle; it is violated only by re-starting a COMPLETED job (see the
counterexample). -/
theorem c5_writes_preserve_wf :
    (∀ (sid fn ct tt path : String) (sz now : Nat),
       wfRecord (uploadRecord sid fn ct tt path sz now)) ∧
    (∀ d : SessionRec, wfRecord d → d.output_path = none →
       wfRecord (startWrite d)) ∧
    (∀ d : SessionRec, wfRecord d → wfRecord (bgProgressWrite d)) ∧
    (∀ (d : SessionRec) (out : String) (fi : FileInfo),
       wfRecord (bgCompleteWrite d out fi)) ∧
    (∀ (d : SessionRec) (e : String), wfRecord d → d.output_path = none →
       wfRecord (bgFailWrite d e)) := by
  refine ⟨?_, ?_, ?_, ?_, ?_⟩
  · intro sid fn ct tt path sz now
    norm_num [wfRecord, uploadRecord]
    decide
  · intro d hwf hout
    norm_num [wfRecord, startWrite, hout]
    exact fun h => nomatch h
  · intro d hwf
    obtain ⟨h1, h2, h3, h4⟩ := hwf
    exact ⟨h1, h2, by norm_num [bgProgressWrite], by norm_num [bgProgressWrite]⟩
  · intro d out fi
    norm_num [wfRecord, bgCompleteWrite]
    exact fun h => nomatch h
  · intro d e hwf hout
    obtain ⟨h1, h2, h3, h4⟩ := hwf
    refine ⟨fun h => absurd hout h, fun _ => by simp [bgFailWrite], h3, h4⟩

/-- C5 witness: the amended theorem applied along a concrete single-start
lifecycle. -/
theorem c5_writes_preserve_wf_w :
    wfRecord (uploadRecord "s" "f" "ct" "tt" "p" 1 0) ∧
    wfRecord (startWrite recQueued) ∧
    wfRecord (bgProgressWrite (startWrite recQueued)) ∧
    wfRecord (bgCompleteWrite recQueued "o" c5Fi) ∧
    wfRecord (bgFailWrite recQueued "err") :=
  ⟨c5_writes_preserve_wf.1 "s" "f" "ct" "tt" "p" 1 0,
   c5_writes_preserve_wf.2.1 recQueued (by decide) rfl,
   c5_writes_preserve_wf.2.2.1 _ (c5_writes_preserve_wf.2.1 recQueued (by decide) rfl),
   c5_writes_preserve_wf.2.2.2.1 recQueued "o" c5Fi,
   c5_writes_preserve_wf.2.2.2.2 recQueued "err" (by decide) rfl⟩

/-- C6: asymmetric store-failure propagation.  With the networked backend
selected, a backend exception during `store_session_data` is re-raised to
the caller unchanged (the write is not swallowed), while a backend exception
during `get_session_data` is converted into the not-found result `None`
(returned, not raised) with the state untouched. -/
theorem c6_store_failure_asymmetry :
    ∀ (st : SMState) (r : RedisStore) (sid : String) (v : Value)
      (T now : Nat) (e : String),
      st.redis_pool = some r →
      (store_session_data st sid v T now (some e) = .error e ∧
       (get_session_data st sid now (some e)).1 = .ok none ∧
       (get_session_data st sid now (some e)).2 = st) := by
  intro st r sid v T now e hr
  refine ⟨?_, ?_, ?_⟩ <;> simp [store_session_data, get_session_data, hr]

/-- C6 witness: the theorem applied at a concrete state and fault. -/
theorem c6_store_failure_asymmetry_w :
    store_session_data ⟨some [], []⟩ "s" .vNull 1 0 (some "io down") =
      .error "io down" ∧
    (get_session_data ⟨some [], []⟩ "s" 0 (some "io down")).1 = .ok none ∧
    (get_session_data ⟨some [], []⟩ "s" 0 (some "io down")).2 = ⟨some [], []⟩ :=
  c6_store_failure_asymmetry ⟨some [], []⟩ [] "s" .vNull 1 0 "io down" rfl

/-- C7: fallback-backend lazy eviction.  Every put on the in-process backend
leaves no entry whose expiry instant has passed (and keeps every other
unexpired entry), and a get on a key whose entry has expired
(`expires_at ≤ now`) deletes that entry from the map and returns the
not-found signal. -/
theorem c7_fallback_lazy_eviction :
    (∀ (mem : MemStore) (sid : String) (v : Value) (T now : Nat)
       (stM : SMState),
       store_session_data ⟨none, mem⟩ sid v T now none = .ok stM →
       (∀ (k : String) (e : MemEntry),
          dictGet stM.in_memory k = some e → ¬ e.expires_at < now) ∧
       (∀ (k : String) (e : MemEntry), k ≠ sid →
          dictGet mem k = some e → ¬ e.expires_at < now →
          dictGet stM.in_memory k = some e)) ∧
    (∀ (mem : MemStore) (sid : String) (now : Nat) (e : MemEntry),
       dictGet mem sid = some e → e.expires_at ≤ now →
       get_session_data ⟨none, mem⟩ sid now none =
         (.ok none, ⟨none, dictRemove mem sid⟩)) := by
  constructor
  · intro mem sid v T now stM hM
    rw [show store_session_data ⟨none, mem⟩ sid v T now none =
          .ok ⟨none, cleanup_expired_sessions
            (dictInsert mem sid ⟨v, now + T * 3600⟩) now⟩ from rfl] at hM
    obtain rfl := Except.ok.inj hM
    constructor
    · intro k e hk
      simp only [cleanup_expired_sessions] at hk
      have hmem := dictGet_mem hk
      have hp := (List.mem_filter.mp hmem).2
      simpa using hp
    · intro k e hne hget hnotexp
      simp only [cleanup_expired_sessions]
      apply dictGet_filter_of_get
      · rw [dictGet_insert_ne mem _ (Ne.symm hne)]
        exact hget
      · simpa using hnotexp
  · intro mem sid now e hget hexp
    simp [get_session_data, hget, show ¬ e.expires_at > now from by omega]

/-- C7 witness: a put at now = 10 evicts a stale entry and keeps the fresh
one; a get on an entry expired at 5 deletes it and returns none. -/
theorem c7_fallback_lazy_eviction_w :
    (¬ (3610 : Nat) < 10) ∧
    get_session_data ⟨none, [("old", ⟨.vNull, 5⟩)]⟩ "old" 10 none =
      (.ok none, ⟨none, dictRemove [("old", ⟨.vNull, 5⟩)] "old"⟩) :=
  ⟨((c7_fallback_lazy_eviction.1 [("old", ⟨.vNull, 5⟩)] "s" .vNull 1 10
      ⟨none, [("s", ⟨.vNull, 3610⟩)]⟩ rfl).1 "s" ⟨.vNull, 3610⟩ rfl),
   c7_fallback_lazy_eviction.2 [("old", ⟨.vNull, 5⟩)] "old" 10 ⟨.vNull, 5⟩
     rfl (by norm_num)⟩

/-- C8 counterexample: a tool type outside the supported set is NOT rejected.
`validate_file_type` raises only when the tool type is a key of
`valid_types`, so an upload with tool type "bogus-tool" passes validation
and a session record IS created in the store. -/
theorem c8_unknown_tool_creates_session :
    validate_file_type "text/plain" "bogus-tool" = none ∧
    (upload_file "f.txt" "text/plain" "bogus-tool" 1 "/tmp/t" "sid-8" 0).1 =
      .ok ⟨"sid-8", "f.txt", 1, "text/plain", 0⟩ ∧
    (upload_file "f.txt" "text/plain" "bogus-tool" 1 "/tmp/t" "sid-8" 0).2 =
      some (uploadRecord "sid-8" "f.txt" "text/plain" "bogus-tool" "/tmp/t" 1 0) :=
  ⟨rfl, rfl, rfl⟩

/-- C8 (amended): for a supported tool type, a content type outside the
tool's allowed list fails the upload with `UnsupportedFileTypeError` before
any session record is created; a tool type outside the supported set is not
rejected — the session record is created (validation is a no-op for it). -/
theorem c8_known_tool_rejected_pre_state :
    (∀ (fn ct tt path sid : String) (sz now : Nat) (allowed : List String),
       sz ≤ MAX_FILE_SIZE_MB * 1024 * 1024 →
       dictGet valid_types tt = some allowed →
       ct ∉ allowed →
       upload_file fn ct tt sz path sid now =
         (.error (.unsupportedFileType ct), none)) ∧
    (∀ (fn ct tt path sid : String) (sz now : Nat),
       sz ≤ MAX_FILE_SIZE_MB * 1024 * 1024 →
       dictGet valid_types tt = none →
       upload_file fn ct tt sz path sid now =
         (.ok ⟨sid, fn, sz, ct, now⟩,
          some (uploadRecord sid fn ct tt path sz now))) := by
  constructor
  · intro fn ct tt path sid sz now allowed hsz hval hct
    simp [upload_file, validate_file_type, hval, hct,
          show ¬ sz > MAX_FILE_SIZE_MB * 1024 * 1024 from by omega]
  · intro fn ct tt path sid sz now hsz hval
    simp [upload_file, validate_file_type, hval,
          show ¬ sz > MAX_FILE_SIZE_MB * 1024 * 1024 from by omega]

/-- C8 witness: the amended theorem applied at a pdf-compress upload with a
text/plain payload, and at an unknown tool type. -/
theorem c8_known_tool_rejected_pre_state_w :
    upload_file "a.bin" "text/plain" "pdf-compress" 1 "/tmp/t" "s" 0 =
      (.error (.unsupportedFileType "text/plain"), none) ∧
    upload_file "a.bin" "text/plain" "bogus" 1 "/tmp/t" "s" 0 =
      (.ok ⟨"s", "a.bin", 1, "text/plain", 0⟩,
       some (uploadRecord "s" "a.bin" "text/plain" "bogus" "/tmp/t" 1 0)) :=
  ⟨c8_known_tool_rejected_pre_state.1 "a.bin" "text/plain" "pdf-compress"
     "/tmp/t" "s" 1 0 ["application/pdf"] (by decide) rfl (by decide),
   c8_known_tool_rejected_pre_state.2 "a.bin" "text/plain" "bogus"
     "/tmp/t" "s" 1 0 (by decide) rfl⟩

/-- C9: the document-conversion transform is bounded by the fixed 60-second
timeout; when the subprocess overruns it (or never finishes) the process is
killed and the conversion fails with the timeout message rather than
hanging, and the job's record ends FAILED with an errorDetail containing
"timed out". -/
theorem c9_conversion_timeout_hard_fails :
    conversion_timeout_seconds = 60 ∧
    (∀ (dur : Nat) (rc : Int) (se : Option String) (gen : Bool),
       conversion_timeout_seconds < dur →
       convert_docx_to_pdf (.finishes dur rc se gen) = (.error timeoutMsg, true)) ∧
    convert_docx_to_pdf .hangs = (.error timeoutMsg, true) ∧
    (∀ (d : SessionRec) (o p : Nat) (fn ds od : String) (b : SubprocBehavior),
       (convert_docx_to_pdf b).1 = .error timeoutMsg →
       process_file_background (some d)
           (process_file .docxToPdf (convert_docx_to_pdf b).1 o p fn ds od)
           none none none =
         some (bgFailWrite (bgProgressWrite d) timeoutBgMsg) ∧
       (bgFailWrite (bgProgressWrite d) timeoutBgMsg).status = .failed ∧
       (bgFailWrite (bgProgressWrite d) timeoutBgMsg).error = some timeoutBgMsg ∧
       strContains timeoutBgMsg "timed out" = true) := by
  refine ⟨rfl, ?_, rfl, ?_⟩
  · intro dur rc se gen hdur
    simp [convert_docx_to_pdf, hdur, timeoutMsg]
  · intro d o p fn ds od b hb
    rw [hb]
    refine ⟨?_, rfl, rfl, by decide⟩
    simp [process_file, process_file_background, bgErrorWrite, timeoutBgMsg, timeoutMsg]

/-- C9 witness: a subprocess that takes 61 seconds is killed with the
timeout error, and a hanging conversion drives a concrete job to the FAILED
record with the "timed out" errorDetail. -/
theorem c9_conversion_timeout_hard_fails_w :
    convert_docx_to_pdf (.finishes 61 0 none true) = (.error timeoutMsg, true) ∧
    process_file_background (some recQueued)
        (process_file .docxToPdf (convert_docx_to_pdf .hangs).1 1000 400
          "d.docx" "12102026" "/tmp/o")
        none none none =
      some (bgFailWrite (bgProgressWrite recQueued) timeoutBgMsg) :=
  ⟨c9_conversion_timeout_hard_fails.2.1 61 0 none true (by decide),
   (c9_conversion_timeout_hard_fails.2.2.2 recQueued 1000 400 "d.docx"
      "12102026" "/tmp/o" .hangs rfl).1⟩

/-- C10: `delete_session` never raises: every invocation returns an `ok`
Boolean.  On the networked backend it returns true exactly when the key was
present (and removes it), a backend exception yields false with the state
untouched, and when the key is absent the faulting and non-faulting calls
return identical results; on the fallback backend it returns true exactly
when the key was present and removes it. -/
theorem c10_delete_never_raises :
    ∀ (st : SMState) (sid : String) (r : RedisStore) (e : String),
      (∃ b st', delete_session st sid none = (.ok b, st')) ∧
      (∃ b st', delete_session st sid (some e) = (.ok b, st')) ∧
      (st.redis_pool = some r →
        delete_session st sid none =
          (.ok ((dictGet r ("session:" ++ sid)).isSome),
           { st with redis_pool := some (dictRemove r ("session:" ++ sid)) }) ∧
        delete_session st sid (some e) = (.ok false, st) ∧
        (dictGet r ("session:" ++ sid) = none →
          delete_session st sid (some e) = delete_session st sid none)) ∧
      (st.redis_pool = none →
        delete_session st sid (some e) = delete_session st sid none ∧
        delete_session st sid none =
          (.ok ((dictGet st.in_memory sid).isSome),
           { st with in_memory := dictRemove st.in_memory sid })) := by
  intro st sid r e
  obtain ⟨rp, mem⟩ := st
  cases rp with
  | some rs =>
    refine ⟨?_, ⟨false, _, rfl⟩, ?_, ?_⟩
    · rcases hg : dictGet rs ("session:" ++ sid) with _ | v
      · exact ⟨false, ⟨some (dictRemove rs ("session:" ++ sid)), mem⟩,
          by simp [delete_session, hg]⟩
      · exact ⟨true, ⟨some (dictRemove rs ("session:" ++ sid)), mem⟩,
          by simp [delete_session, hg]⟩
    · intro hr
      rw [show ({ redis_pool := some rs, in_memory := mem } : SMState).redis_pool
            = some rs from rfl] at hr
      obtain rfl := Option.some.inj hr
      refine ⟨?_, rfl, ?_⟩
      · rcases hg : dictGet rs ("session:" ++ sid) with _ | v <;>
          simp [delete_session, hg]
      · intro hnone
        simp [delete_session, hnone, dictRemove_of_get_none hnone]
    · intro hr
      simp at hr
  | none =>
    refine ⟨?_, ?_, ?_, ?_⟩
    · rcases hg : dictGet mem sid with _ | v
      · exact ⟨false, ⟨none, mem⟩, by simp [delete_session, hg]⟩
      · exact ⟨true, ⟨none, dictRemove mem sid⟩, by simp [delete_session, hg]⟩
    · rcases hg : dictGet mem sid with _ | v
      · exact ⟨false, ⟨none, mem⟩, by simp [delete_session, hg]⟩
      · exact ⟨true, ⟨none, dictRemove mem sid⟩, by simp [delete_session, hg]⟩
    · intro hr
      simp at hr
    · intro _
      constructor
      · rfl
      · rcases hg : dictGet mem sid with _ | v
        · simp [delete_session, hg, dictRemove_of_get_none hg]
        · simp [delete_session, hg]

/-- C10 witness: the theorem applied on both backends, with the key present,
absent, and under a backend fault. -/
theorem c10_delete_never_raises_w :
    delete_session ⟨some [("session:s", (.vNull, 9))], []⟩ "s" none =
      (.ok ((dictGet [("session:s", ((.vNull : Value), 9))] "session:s").isSome),
       ⟨some (dictRemove [("session:s", (.vNull, 9))] "session:s"), []⟩) ∧
    delete_session ⟨some [("session:s", (.vNull, 9))], []⟩ "s" (some "io") =
      (.ok false, ⟨some [("session:s", (.vNull, 9))], []⟩) ∧
    delete_session ⟨none, [("s", ⟨.vNull, 9⟩)]⟩ "s" none =
      (.ok ((dictGet [("s", (⟨.vNull, 9⟩ : MemEntry))] "s").isSome),
       ⟨none, dictRemove [("s", ⟨.vNull, 9⟩)] "s"⟩) :=
  ⟨((c10_delete_never_raises ⟨some [("session:s", (.vNull, 9))], []⟩ "s"
      [("session:s", (.vNull, 9))] "io").2.2.1 rfl).1,
   ((c10_delete_never_raises ⟨some [("session:s", (.vNull, 9))], []⟩ "s"
      [("session:s", (.vNull, 9))] "io").2.2.1 rfl).2.1,
   ((c10_delete_never_raises ⟨none, [("s", ⟨.vNull, 9⟩)]⟩ "s" [] "io").2.2.2
      rfl).2⟩

end DamPDF
